import Mathlib

/-!
Verification of the scoring core of the maatram dropout app
(`compute_score_and_reason` in `app.py`).

The function is pure arithmetic over the parsed field values, so we embed it
over exact rationals.  Each input field is modelled as the outcome of the
source's per-field try/except parsing: `none` stands for a field that was
missing or failed numeric parsing (both fall back to the same default in the
source), `some v` for a field that parsed to the number `v`.  `family_size`
is parsed with `int(...)` in the source, hence modelled as `Option ℤ`.

`round(x, 2)` is modelled with Mathlib's `round` on ℚ (round half up);
Python breaks decimal ties to even, but no claim below evaluates `round` at
a tie, and each generic claim applies the same rounding on both sides, so
the tie-breaking convention is immaterial here.
-/

namespace Maatram

/-- Input record of `compute_score_and_reason`: each field is the parse
outcome of the corresponding dict entry (`none` = missing or unparsable). -/
structure Record where
  academic : Option ℚ
  parent_income : Option ℚ
  family_size : Option ℤ
  motivation : Option ℚ
  behavior : Option ℚ
deriving DecidableEq

/-- `academic = float(record.get('academic', 0))`, default 0 on failure. -/
def academicVal (r : Record) : ℚ := r.academic.getD 0

/-- `parent_income = float(record.get('parent_income', 0))`, default 0. -/
def parentIncomeVal (r : Record) : ℚ := r.parent_income.getD 0

/-- `family_size = int(record.get('family_size', 1))`, default 1. -/
def familySizeVal (r : Record) : ℤ := r.family_size.getD 1

/-- `motivation = float(record.get('motivation', 3))`, default 3. -/
def motivationVal (r : Record) : ℚ := r.motivation.getD 3

/-- `behavior = float(record.get('behavior', 2))`, default 2. -/
def behaviorVal (r : Record) : ℚ := r.behavior.getD 2

/-- `income_cap = max(parent_income, 1)`. -/
def income_cap (r : Record) : ℚ := max (parentIncomeVal r) 1

/-- `need_score = max(0, 100 - (income_cap / 20000.0) * 100)` then
`need_score = min(100, need_score + (family_size - 1) * 5)`. -/
def need_score (r : Record) : ℚ :=
  min 100 (max 0 (100 - income_cap r / 20000 * 100) + ((familySizeVal r : ℚ) - 1) * 5)

/-- `stability_score = min(100, (income_cap / 20000.0) * 100)` then
`stability_score = max(0, stability_score - (family_size - 1) * 3)`. -/
def stability_score (r : Record) : ℚ :=
  max 0 (min 100 (income_cap r / 20000 * 100) - ((familySizeVal r : ℚ) - 1) * 3)

/-- `academic_comp = max(0, min(100, academic))`. -/
def academic_comp (r : Record) : ℚ := max 0 (min 100 (academicVal r))

/-- `socio_comp = need_score * 0.6 + stability_score * 0.4`. -/
def socio_comp (r : Record) : ℚ := need_score r * 0.6 + stability_score r * 0.4

/-- `motivation_comp = max(0, min(100, (motivation / 5.0) * 100))`. -/
def motivation_comp (r : Record) : ℚ := max 0 (min 100 (motivationVal r / 5 * 100))

/-- `behavior_comp = max(0, min(100, (behavior / 3.0) * 100))`. -/
def behavior_comp (r : Record) : ℚ := max 0 (min 100 (behaviorVal r / 3 * 100))

/-- The unrounded weighted aggregate
`score = academic_comp*0.30 + socio_comp*0.30 + motivation_comp*0.20 + behavior_comp*0.20`. -/
def rawScore (r : Record) : ℚ :=
  academic_comp r * 0.30 + socio_comp r * 0.30 +
    motivation_comp r * 0.20 + behavior_comp r * 0.20

/-- `round(q, 2)`: round to two decimal places. -/
def round2 (q : ℚ) : ℚ := ((round (q * 100) : ℤ) : ℚ) / 100

/-- The risk bucketing: `if score >= 70 ... elif score >= 45 ... else ...`,
applied (as in the source) to the unrounded score. -/
def riskOf (r : Record) : String :=
  if rawScore r ≥ 70 then "Low Risk"
  else if rawScore r ≥ 45 then "Medium Risk"
  else "High Risk"

/-- The `reasons` list built by the five independent flag conditions, in
source order. -/
def reasonsOf (r : Record) : List String :=
  (if academic_comp r < 50 then ["Weak academic performance"] else []) ++
  (if motivation_comp r < 50 then ["Low motivation"] else []) ++
  (if behavior_comp r < 50 then ["Behavior concerns"] else []) ++
  (if stability_score r < 30 then ["Financial instability"] else []) ++
  (if need_score r > 70 ∧ stability_score r < 40 then
    ["High financial need (deserving) but unstable resources"] else [])

/-- `if not reasons: reasons = ['No major concerns found']` then
`reason_text = ' + '.join(reasons)`. -/
def reasonText (r : Record) : String :=
  String.intercalate " + "
    (if reasonsOf r = [] then ["No major concerns found"] else reasonsOf r)

/-- `compute_score_and_reason`: returns `(round(score, 2), risk, reason_text)`. -/
def compute_score_and_reason (r : Record) : ℚ × String × String :=
  (round2 (rawScore r), riskOf r, reasonText r)

/-- The record holding the documented default for every field. -/
def defaultRecord : Record := ⟨some 0, some 0, some 1, some 3, some 2⟩

/-- The record with every field missing or unparsable. -/
def allMissingRecord : Record := ⟨none, none, none, none, none⟩

/-- The spec's clamp: `clamp(x, lo, hi)`. -/
def clamp (x lo hi : ℚ) : ℚ := max lo (min hi x)

/-- The score as the spec's formula section words it (claim C1): weighted
aggregate of the clamped components, rounded to 2 decimals, with
`need_score = min(100, clamp(100 - (income_cap/20000)*100, 0, 100) + (family_size-1)*5)`
and
`stability_score = max(0, clamp((income_cap/20000)*100, 0, 100) - (family_size-1)*3)`. -/
def spec_score (academic parent_income : ℚ) (family_size : ℤ)
    (motivation behavior : ℚ) : ℚ :=
  let academicC := clamp academic 0 100
  let motivationC := clamp (motivation / 5 * 100) 0 100
  let behaviorC := clamp (behavior / 3 * 100) 0 100
  let icap := max parent_income 1
  let need := min 100 (clamp (100 - icap / 20000 * 100) 0 100 + ((family_size : ℚ) - 1) * 5)
  let stab := max 0 (clamp (icap / 20000 * 100) 0 100 - ((family_size : ℚ) - 1) * 3)
  let socio := need * 0.6 + stab * 0.4
  round2 (0.30 * academicC + 0.30 * socio + 0.20 * motivationC + 0.20 * behaviorC)

lemma ratio_pos (p : ℚ) : 0 < max p 1 / 20000 * 100 := by
  have h1 : (1:ℚ) ≤ max p 1 := le_max_right p 1
  have h0 : (0:ℚ) < max p 1 := lt_of_lt_of_le one_pos h1
  have := div_pos h0 (show (0:ℚ) < 20000 by norm_num)
  linarith

/-- C1: for every input record whose fields all parse as numbers, the score
returned by `compute_score_and_reason` is the spec's formula: the weighted
aggregate `round(0.30*academic_comp + 0.30*socio_comp + 0.20*motivation_comp
+ 0.20*behavior_comp, 2)` with the clamped components and the
need/stability derivation stated in the claim. -/
theorem C1_score_matches_spec_formula (a p : ℚ) (f : ℤ) (m b : ℚ) :
    (compute_score_and_reason ⟨some a, some p, some f, some m, some b⟩).1 =
      spec_score a p f m b := by
  have hc := ratio_pos p
  have hneed : min 100 (100 - max p 1 / 20000 * 100) = 100 - max p 1 / 20000 * 100 :=
    min_eq_right (by linarith)
  have hstab : max 0 (min 100 (max p 1 / 20000 * 100)) = min 100 (max p 1 / 20000 * 100) :=
    max_eq_right (le_min (by norm_num) (le_of_lt hc))
  simp only [compute_score_and_reason, rawScore, academic_comp, socio_comp,
    motivation_comp, behavior_comp, need_score, stability_score, income_cap,
    academicVal, parentIncomeVal, familySizeVal, motivationVal, behaviorVal,
    Option.getD_some, spec_score, clamp]
  rw [hneed, hstab]
  congr 1
  ring

/-- C5: `compute_score_and_reason` always returns a (score, risk, reason)
triple; each field defaults independently (academic=0, parent_income=0,
family_size=1, motivation=3, behavior=2 when missing or unparsable), so any
record gives the same result as the record with every absent field replaced
by its default, and in particular the all-missing input gives exactly the
result of the all-defaults input. -/
theorem C5_missing_fields_default_independently :
    (∀ r : Record, compute_score_and_reason r =
      compute_score_and_reason
        ⟨some (academicVal r), some (parentIncomeVal r), some (familySizeVal r),
         some (motivationVal r), some (behaviorVal r)⟩) ∧
    compute_score_and_reason allMissingRecord = compute_score_and_reason defaultRecord :=
  ⟨fun _ => rfl, rfl⟩

/-- C6 counterexample: on the all-defaults input the intermediates are not
the ones the claim states: `need_score` is 99.995 rather than 100,
`stability_score` is 0.005 rather than 0, `socio_comp` is 59.999 rather
than 60, and `behavior_comp` is 200/3, not 66.67 (since `income_cap`
is floored at 1, `(income_cap/20000)*100 = 0.005` is not 0). -/
theorem C6_counterexample_default_intermediates :
    need_score defaultRecord ≠ 100 ∧ stability_score defaultRecord ≠ 0 ∧
    socio_comp defaultRecord ≠ 60 ∧ behavior_comp defaultRecord ≠ 6667/100 := by
  refine ⟨?_, ?_, ?_, ?_⟩ <;>
    norm_num [need_score, stability_score, socio_comp, behavior_comp, income_cap,
      parentIncomeVal, familySizeVal, behaviorVal, defaultRecord, max_def, min_def]

/-- C6 amended: on the all-defaults input (academic=0, parent_income=0,
family_size=1, motivation=3, behavior=2) the intermediates are income_cap=1,
need_score=99.995, stability_score=0.005, socio_comp=59.999,
motivation_comp=60, behavior_comp=200/3 (≈66.67); the returned score is
43.33, the risk "High Risk", and the reason exactly "Weak academic
performance + Financial instability + High financial need (deserving) but
unstable resources". -/
theorem C6_default_input_result :
    income_cap defaultRecord = 1 ∧
    need_score defaultRecord = 19999/200 ∧
    stability_score defaultRecord = 1/200 ∧
    socio_comp defaultRecord = 59999/1000 ∧
    motivation_comp defaultRecord = 60 ∧
    behavior_comp defaultRecord = 200/3 ∧
    compute_score_and_reason defaultRecord =
      (4333/100, "High Risk",
        "Weak academic performance + Financial instability + High financial need (deserving) but unstable resources") := by
  refine ⟨?_, ?_, ?_, ?_, ?_, ?_, ?_⟩ <;>
    norm_num [compute_score_and_reason, riskOf, reasonText, reasonsOf, rawScore,
      academic_comp, socio_comp, motivation_comp, behavior_comp, need_score,
      stability_score, income_cap, academicVal, parentIncomeVal, familySizeVal,
      motivationVal, behaviorVal, defaultRecord, round2, round_eq, max_def, min_def]
  decide

/-- C7: on academic=80, parent_income=15000, family_size=3, motivation=4,
behavior=3 the intermediates are need_score=35, stability_score=69,
socio_comp=48.6, motivation_comp=80, behavior_comp=100, and
`compute_score_and_reason` returns score 74.58, risk "Low Risk", reason
"No major concerns found". -/
theorem C7_worked_example :
    need_score ⟨some 80, some 15000, some 3, some 4, some 3⟩ = 35 ∧
    stability_score ⟨some 80, some 15000, some 3, some 4, some 3⟩ = 69 ∧
    socio_comp ⟨some 80, some 15000, some 3, some 4, some 3⟩ = 243/5 ∧
    motivation_comp ⟨some 80, some 15000, some 3, some 4, some 3⟩ = 80 ∧
    behavior_comp ⟨some 80, some 15000, some 3, some 4, some 3⟩ = 100 ∧
    compute_score_and_reason ⟨some 80, some 15000, some 3, some 4, some 3⟩ =
      (7458/100, "Low Risk", "No major concerns found") := by
  refine ⟨?_, ?_, ?_, ?_, ?_, ?_⟩ <;>
    norm_num [compute_score_and_reason, riskOf, reasonText, reasonsOf, rawScore,
      academic_comp, socio_comp, motivation_comp, behavior_comp, need_score,
      stability_score, income_cap, academicVal, parentIncomeVal, familySizeVal,
      motivationVal, behaviorVal, round2, round_eq, max_def, min_def]
  decide

lemma round2_mono {a b : ℚ} (h : a ≤ b) : round2 a ≤ round2 b := by
  unfold round2
  have hr : round (a * 100) ≤ round (b * 100) := by
    rw [round_eq, round_eq]
    exact Int.floor_le_floor (by linarith)
  have hc : ((round (a * 100) : ℤ) : ℚ) ≤ ((round (b * 100) : ℤ) : ℚ) := by
    exact_mod_cast hr
  exact (div_le_div_iff_of_pos_right (show (0:ℚ) < 100 by norm_num)).mpr hc

lemma round2_zero : round2 0 = 0 := by
  simp [round2]

lemma round2_hundred : round2 100 = 100 := by
  rw [round2, round_eq]
  norm_num

lemma academic_comp_nonneg (r : Record) : 0 ≤ academic_comp r := le_max_left _ _

lemma academic_comp_le (r : Record) : academic_comp r ≤ 100 :=
  max_le (by norm_num) (min_le_left _ _)

lemma motivation_comp_nonneg (r : Record) : 0 ≤ motivation_comp r := le_max_left _ _

lemma motivation_comp_le (r : Record) : motivation_comp r ≤ 100 :=
  max_le (by norm_num) (min_le_left _ _)

lemma behavior_comp_nonneg (r : Record) : 0 ≤ behavior_comp r := le_max_left _ _

lemma behavior_comp_le (r : Record) : behavior_comp r ≤ 100 :=
  max_le (by norm_num) (min_le_left _ _)

lemma need_score_le (r : Record) : need_score r ≤ 100 := min_le_left _ _

lemma need_score_nonneg (r : Record) (hf : 1 ≤ familySizeVal r) : 0 ≤ need_score r := by
  unfold need_score
  have h1 : (0:ℚ) ≤ (familySizeVal r : ℚ) - 1 := by
    have : (1:ℚ) ≤ (familySizeVal r : ℚ) := by exact_mod_cast hf
    linarith
  exact le_min (by norm_num)
    (add_nonneg (le_max_left _ _) (mul_nonneg h1 (by norm_num)))

lemma stability_score_nonneg (r : Record) : 0 ≤ stability_score r := le_max_left _ _

lemma stability_score_le (r : Record) (hf : 1 ≤ familySizeVal r) :
    stability_score r ≤ 100 := by
  unfold stability_score
  have h1 : (0:ℚ) ≤ (familySizeVal r : ℚ) - 1 := by
    have : (1:ℚ) ≤ (familySizeVal r : ℚ) := by exact_mod_cast hf
    linarith
  have h2 : min 100 (income_cap r / 20000 * 100) ≤ 100 := min_le_left _ _
  have h3 : 0 ≤ ((familySizeVal r : ℚ) - 1) * 3 := mul_nonneg h1 (by norm_num)
  exact max_le (by norm_num) (by linarith)

lemma rawScore_nonneg (r : Record) (hf : 1 ≤ familySizeVal r) : 0 ≤ rawScore r := by
  have h1 := academic_comp_nonneg r
  have h2 := motivation_comp_nonneg r
  have h3 := behavior_comp_nonneg r
  have h4 := need_score_nonneg r hf
  have h5 := stability_score_nonneg r
  unfold rawScore socio_comp
  nlinarith

lemma rawScore_le (r : Record) (hf : 1 ≤ familySizeVal r) : rawScore r ≤ 100 := by
  have h1 := academic_comp_le r
  have h2 := motivation_comp_le r
  have h3 := behavior_comp_le r
  have h4 := need_score_le r
  have h5 := stability_score_le r hf
  unfold rawScore socio_comp
  nlinarith

/-- C2 counterexample: the claim fails for a record with a very negative
family_size: academic=0, parent_income=20000, family_size=-100,
motivation=0, behavior=0 makes `need_score = -505`, the weighted score
`-42.54`, and `compute_score_and_reason` returns a score below 0. -/
theorem C2_counterexample_negative_family_size :
    (compute_score_and_reason ⟨some 0, some 20000, some (-100), some 0, some 0⟩).1 < 0 := by
  norm_num [compute_score_and_reason, rawScore, academic_comp, socio_comp,
    motivation_comp, behavior_comp, need_score, stability_score, income_cap,
    academicVal, parentIncomeVal, familySizeVal, motivationVal, behaviorVal,
    round2, round_eq, max_def, min_def]

/-- C2 amended: the returned score lies in [0, 100] for every input record
whose parsed family_size is at least 1 (the data model's positive-integer
range); for family_size below 1 the lower bound can fail. -/
theorem C2_amended_score_in_range (r : Record) (hf : 1 ≤ familySizeVal r) :
    0 ≤ (compute_score_and_reason r).1 ∧ (compute_score_and_reason r).1 ≤ 100 := by
  constructor
  · have h := round2_mono (rawScore_nonneg r hf)
    rw [round2_zero] at h
    exact h
  · have h := round2_mono (rawScore_le r hf)
    rw [round2_hundred] at h
    exact h

/-- C2 witness: the amended bound applied to the all-defaults record. -/
theorem C2_amended_score_in_range_witness :
    1 ≤ familySizeVal defaultRecord ∧
      (0 ≤ (compute_score_and_reason defaultRecord).1 ∧
       (compute_score_and_reason defaultRecord).1 ≤ 100) :=
  ⟨by norm_num [familySizeVal, defaultRecord],
   C2_amended_score_in_range defaultRecord (by norm_num [familySizeVal, defaultRecord])⟩

/-- C9: the returned score is the weighted aggregate rounded to 2 decimals
while the risk bucket is computed from the unrounded aggregate; on the
record (academic=100, parent_income=1, family_size=1, motivation=0.499,
behavior=3) the aggregate is 69.9957, so the returned score rounds up to
70 while the risk is still "Medium Risk" — the bucketing happens before
rounding, not on the returned score. -/
theorem C9_risk_bucketed_before_rounding :
    (∀ r : Record, compute_score_and_reason r =
      (round2 (rawScore r),
       if rawScore r ≥ 70 then "Low Risk"
       else if rawScore r ≥ 45 then "Medium Risk"
       else "High Risk",
       reasonText r)) ∧
    rawScore ⟨some 100, some 1, some 1, some (499/1000), some 3⟩ = 699957/10000 ∧
    (compute_score_and_reason ⟨some 100, some 1, some 1, some (499/1000), some 3⟩).1 = 70 ∧
    (compute_score_and_reason ⟨some 100, some 1, some 1, some (499/1000), some 3⟩).2.1 =
      "Medium Risk" := by
  refine ⟨fun r => rfl, ?_, ?_, ?_⟩ <;>
    norm_num [compute_score_and_reason, riskOf, rawScore, academic_comp, socio_comp,
      motivation_comp, behavior_comp, need_score, stability_score, income_cap,
      academicVal, parentIncomeVal, familySizeVal, motivationVal, behaviorVal,
      round2, round_eq, max_def, min_def]

/-- C3 counterexample: on the record (academic=100, parent_income=1,
family_size=1, motivation=0.499, behavior=3) the returned score is exactly
70 but the returned risk is "Medium Risk", not "Low Risk": the claimed
biconditional between the returned score and the risk category fails. -/
theorem C3_counterexample_returned_score_70_medium :
    (compute_score_and_reason ⟨some 100, some 1, some 1, some (499/1000), some 3⟩).1 = 70 ∧
    (compute_score_and_reason ⟨some 100, some 1, some 1, some (499/1000), some 3⟩).2.1 =
      "Medium Risk" ∧
    (compute_score_and_reason ⟨some 100, some 1, some 1, some (499/1000), some 3⟩).2.1 ≠
      "Low Risk" := by
  refine ⟨?_, ?_, ?_⟩ <;>
    norm_num [compute_score_and_reason, riskOf, rawScore, academic_comp, socio_comp,
      motivation_comp, behavior_comp, need_score, stability_score, income_cap,
      academicVal, parentIncomeVal, familySizeVal, motivationVal, behaviorVal,
      round2, round_eq, max_def, min_def]
  decide

/-- C3 amended: the risk category is determined by thresholding the
unrounded weighted aggregate (≥ 70 Low, ≥ 45 Medium, else High), not the
returned rounded score; an aggregate of exactly 70 yields "Low Risk"
(returned score 70), exactly 45 yields "Medium Risk" (returned score 45),
and exactly 44.99 yields "High Risk" (returned score 44.99). -/
theorem C3_amended_risk_from_unrounded_aggregate :
    (∀ r : Record, (compute_score_and_reason r).2.1 =
      if rawScore r ≥ 70 then "Low Risk"
      else if rawScore r ≥ 45 then "Medium Risk"
      else "High Risk") ∧
    (rawScore ⟨some 100, some 20000, some 1, some 5, some (6/5)⟩ = 70 ∧
     compute_score_and_reason ⟨some 100, some 20000, some 1, some 5, some (6/5)⟩ =
       (70, "Low Risk", "Behavior concerns")) ∧
    (rawScore ⟨some 100, some 20000, some 1, some (3/4), some 0⟩ = 45 ∧
     (compute_score_and_reason ⟨some 100, some 20000, some 1, some (3/4), some 0⟩).1 = 45 ∧
     (compute_score_and_reason ⟨some 100, some 20000, some 1, some (3/4), some 0⟩).2.1 =
       "Medium Risk") ∧
    (rawScore ⟨some 100, some 20000, some 1, some (7475/10000), some 0⟩ = 4499/100 ∧
     (compute_score_and_reason ⟨some 100, some 20000, some 1, some (7475/10000), some 0⟩).1 =
       4499/100 ∧
     (compute_score_and_reason ⟨some 100, some 20000, some 1, some (7475/10000), some 0⟩).2.1 =
       "High Risk") := by
  refine ⟨fun r => rfl, ⟨?_, ?_⟩, ⟨?_, ?_, ?_⟩, ⟨?_, ?_, ?_⟩⟩ <;>
    norm_num [compute_score_and_reason, riskOf, reasonText, reasonsOf, rawScore,
      academic_comp, socio_comp, motivation_comp, behavior_comp, need_score,
      stability_score, income_cap, academicVal, parentIncomeVal, familySizeVal,
      motivationVal, behaviorVal, round2, round_eq, max_def, min_def]
  all_goals decide

/-- The reason flags exactly as claim C4 words them, in its fixed order,
each condition evaluated independently. -/
def spec_reason_flags (r : Record) : List String :=
  (if academic_comp r < 50 then ["Weak academic performance"] else []) ++
  (if motivation_comp r < 50 then ["Low motivation"] else []) ++
  (if behavior_comp r < 50 then ["Behavior concerns"] else []) ++
  (if stability_score r < 30 then ["Financial instability"] else []) ++
  (if need_score r > 70 ∧ stability_score r < 40 then
    ["High financial need (deserving) but unstable resources"] else [])

/-- C4: the reason string is the " + "-concatenation of exactly the flags
whose conditions hold, in the fixed order of the claim; when no condition
holds it is exactly "No major concerns found"; it is never empty. -/
theorem C4_reason_is_flag_concatenation :
    ∀ r : Record,
      (compute_score_and_reason r).2.2 =
        (if spec_reason_flags r = [] then "No major concerns found"
         else String.intercalate " + " (spec_reason_flags r)) ∧
      (compute_score_and_reason r).2.2 ≠ "" := by
  intro r
  constructor
  · show reasonText r = _
    unfold reasonText
    have hflags : spec_reason_flags r = reasonsOf r := rfl
    rw [hflags]
    by_cases h : reasonsOf r = []
    · rw [if_pos h, if_pos h]
      decide
    · rw [if_neg h, if_neg h]
  · show reasonText r ≠ ""
    unfold reasonText reasonsOf
    split_ifs <;> first | decide | simp_all

/-- C8 counterexample: two records identical except for academic = 50.002
versus academic = 50.005 (both inside [0, 100], the first strictly smaller)
get the same returned score 58.33 — rounding to 2 decimals collapses the
strict increase of the aggregate. -/
theorem C8_counterexample_rounding_collapses :
    (0:ℚ) ≤ 50002/1000 ∧ (50002:ℚ)/1000 < 50005/1000 ∧ (50005:ℚ)/1000 ≤ 100 ∧
    (compute_score_and_reason ⟨some (50002/1000), none, none, none, none⟩).1 = 5833/100 ∧
    (compute_score_and_reason ⟨some (50005/1000), none, none, none, none⟩).1 = 5833/100 := by
  refine ⟨by norm_num, by norm_num, by norm_num, ?_, ?_⟩ <;>
    norm_num [compute_score_and_reason, rawScore, academic_comp, socio_comp,
      motivation_comp, behavior_comp, need_score, stability_score, income_cap,
      academicVal, parentIncomeVal, familySizeVal, motivationVal, behaviorVal,
      round2, round_eq, max_def, min_def]

/-- C8 amended: with all other fields fixed and both academic values in
[0, 100], increasing academic strictly increases the unrounded weighted
aggregate; the returned (rounded) score is monotone but only weakly, since
rounding can map two distinct aggregates to the same 2-decimal value. -/
theorem C8_amended_academic_monotone (a1 a2 : ℚ) (p : Option ℚ) (f : Option ℤ)
    (m b : Option ℚ) (h0 : 0 ≤ a1) (h12 : a1 < a2) (h2 : a2 ≤ 100) :
    rawScore ⟨some a1, p, f, m, b⟩ < rawScore ⟨some a2, p, f, m, b⟩ ∧
    (compute_score_and_reason ⟨some a1, p, f, m, b⟩).1 ≤
      (compute_score_and_reason ⟨some a2, p, f, m, b⟩).1 := by
  have e1 : academic_comp ⟨some a1, p, f, m, b⟩ = a1 := by
    unfold academic_comp academicVal
    rw [Option.getD_some, min_eq_right (le_trans h12.le h2), max_eq_right h0]
  have e2 : academic_comp ⟨some a2, p, f, m, b⟩ = a2 := by
    unfold academic_comp academicVal
    rw [Option.getD_some, min_eq_right h2, max_eq_right (le_trans h0 h12.le)]
  have eS : socio_comp ⟨some a1, p, f, m, b⟩ = socio_comp ⟨some a2, p, f, m, b⟩ := rfl
  have eM : motivation_comp ⟨some a1, p, f, m, b⟩ = motivation_comp ⟨some a2, p, f, m, b⟩ := rfl
  have eB : behavior_comp ⟨some a1, p, f, m, b⟩ = behavior_comp ⟨some a2, p, f, m, b⟩ := rfl
  have hraw : rawScore ⟨some a1, p, f, m, b⟩ < rawScore ⟨some a2, p, f, m, b⟩ := by
    unfold rawScore
    rw [e1, e2, eS, eM, eB]
    have : a1 * 0.30 < a2 * 0.30 := by linarith
    linarith
  exact ⟨hraw, round2_mono hraw.le⟩

/-- C8 witness: the amended monotonicity at academic 10 versus 20,
all other fields missing. -/
theorem C8_amended_academic_monotone_witness :
    (0:ℚ) ≤ 10 ∧ (10:ℚ) < 20 ∧ (20:ℚ) ≤ 100 ∧
    (rawScore ⟨some 10, none, none, none, none⟩ <
       rawScore ⟨some 20, none, none, none, none⟩ ∧
     (compute_score_and_reason ⟨some 10, none, none, none, none⟩).1 ≤
       (compute_score_and_reason ⟨some 20, none, none, none, none⟩).1) :=
  ⟨by norm_num, by norm_num, by norm_num,
   C8_amended_academic_monotone 10 20 none none none none
     (by norm_num) (by norm_num) (by norm_num)⟩

/-- C10: two records that agree on every field but parent_income, with both
parsed incomes at most 1 (including zero and negatives), produce identical
(score, risk, reason) results: `income_cap = max(parent_income, 1)` floors
the income at 1 before any other use. -/
theorem C10_income_floored_at_one (r1 r2 : Record)
    (ha : r1.academic = r2.academic) (hf : r1.family_size = r2.family_size)
    (hm : r1.motivation = r2.motivation) (hb : r1.behavior = r2.behavior)
    (hp1 : parentIncomeVal r1 ≤ 1) (hp2 : parentIncomeVal r2 ≤ 1) :
    compute_score_and_reason r1 = compute_score_and_reason r2 := by
  have hic : income_cap r1 = income_cap r2 := by
    unfold income_cap
    rw [max_eq_right hp1, max_eq_right hp2]
  have hA : academicVal r1 = academicVal r2 := by unfold academicVal; rw [ha]
  have hF : familySizeVal r1 = familySizeVal r2 := by unfold familySizeVal; rw [hf]
  have hM : motivationVal r1 = motivationVal r2 := by unfold motivationVal; rw [hm]
  have hB : behaviorVal r1 = behaviorVal r2 := by unfold behaviorVal; rw [hb]
  have hneed : need_score r1 = need_score r2 := by unfold need_score; rw [hic, hF]
  have hstab : stability_score r1 = stability_score r2 := by
    unfold stability_score; rw [hic, hF]
  have h1 : academic_comp r1 = academic_comp r2 := by unfold academic_comp; rw [hA]
  have h2 : socio_comp r1 = socio_comp r2 := by unfold socio_comp; rw [hneed, hstab]
  have h3 : motivation_comp r1 = motivation_comp r2 := by unfold motivation_comp; rw [hM]
  have h4 : behavior_comp r1 = behavior_comp r2 := by unfold behavior_comp; rw [hB]
  have hraw : rawScore r1 = rawScore r2 := by unfold rawScore; rw [h1, h2, h3, h4]
  have hrisk : riskOf r1 = riskOf r2 := by unfold riskOf; rw [hraw]
  have hflags : reasonsOf r1 = reasonsOf r2 := by
    unfold reasonsOf; rw [h1, h3, h4, hstab, hneed]
  have hreason : reasonText r1 = reasonText r2 := by unfold reasonText; rw [hflags]
  unfold compute_score_and_reason
  rw [hraw, hrisk, hreason]

/-- C10 witness: income 0 versus income -3 with all other fields equal. -/
theorem C10_income_floored_at_one_witness :
    parentIncomeVal ⟨some 50, some 0, some 2, some 4, some 2⟩ ≤ 1 ∧
    parentIncomeVal ⟨some 50, some (-3), some 2, some 4, some 2⟩ ≤ 1 ∧
    compute_score_and_reason ⟨some 50, some 0, some 2, some 4, some 2⟩ =
      compute_score_and_reason ⟨some 50, some (-3), some 2, some 4, some 2⟩ :=
  ⟨by norm_num [parentIncomeVal], by norm_num [parentIncomeVal],
   C10_income_floored_at_one _ _ rfl rfl rfl rfl
     (by norm_num [parentIncomeVal]) (by norm_num [parentIncomeVal])⟩

end Maatram
